import Mathlib

/-!
# Doraemon chat-bot server entry point (`server/src/index.js`)

A shallow embedding of the server shell: the Express middleware stack
(CORS gate, body parsers, `/health`, the five route groups, the production
static/wildcard block, the global error handler and the final 404 handler),
the Socket.IO relay handlers (`join`, `sendMessage`, `disconnect`) and the
`SIGINT` handler, followed by the properties stated about them.

Library code (Express, cors, body parsers, passport, the route-group
modules, `express.static`, Socket.IO) is not part of `index.js`; it enters
the model as the fields of `Deps`, or, for the relay registry, as
definitions modelled from the specification and marked as such. The
identifier `io` is used by `index.js` (line 117) without being declared in
it; the model takes it as the Socket.IO server supplied from outside.
-/

namespace Server

/-! ## JavaScript values -/

/-- A thrown or rejected JavaScript value; `message` is `err.message`
(`none` when the property is `undefined`). -/
structure JsError where
  message : Option String
deriving DecidableEq, Repr

/-- The part of `process.env` that `index.js` branches on. `none` is an
unset variable. -/
structure ProcessEnv where
  NODE_ENV : Option String
deriving DecidableEq, Repr

/-- JavaScript `v || d` for a value that is a string or `undefined`:
`undefined` and the empty string are falsy. -/
def orDefault (v : Option String) (d : String) : String :=
  match v with
  | none => d
  | some s => if s = "" then d else s

/-- JavaScript `!v` for a value that is a string or `undefined`. -/
def isFalsy (v : Option String) : Bool :=
  match v with
  | none => true
  | some s => s == ""

/-- JavaScript `s.startsWith(pre)`, on the characters of the two strings. -/
def startsWith (s pre : String) : Bool :=
  pre.toList.isPrefixOf s.toList

/-! ## HTTP data model -/

inductive Method
  | GET | HEAD | POST | PUT | PATCH | DELETE | OPTIONS
deriving DecidableEq, Repr

/-- An incoming request: `req.method`, `req.path`, `req.headers.origin`
and the raw body (seen only by the library middleware). -/
structure Request where
  method : Method
  path : String
  origin : Option String
  body : String
deriving DecidableEq, Repr

/-- Values placed in a JSON response body by `index.js`. `isoTime t` is
`new Date(t).toISOString()`; `undefined` is a property whose value is
`undefined`. -/
inductive JsonValue
  | str (s : String)
  | isoTime (epochMs : Int)
  | undefined
deriving DecidableEq, Repr

/-- An object literal: its properties in source order. -/
abbrev JsonObject := List (String × JsonValue)

/-- File-system paths built by `path.join`, kept symbolic. -/
inductive FilePath
  | dirname
  | join (base : FilePath) (segment : String)
deriving DecidableEq, Repr

/-- What a request is answered with. `json` is `res.status(n).json(o)`,
`sendFile` is the file sent by `res.sendFile(p)`, `library` is a response written by library
middleware or a route group, `finalhandler` is Express's built-in answer
when the stack is exhausted: a 404 when no error is pending, the error's own
status (500 by default) otherwise. -/
inductive Response
  | json (status : Nat) (body : JsonObject)
  | sendFile (file : FilePath)
  | library (source : String) (status : Nat)
  | finalhandler (pending : Option JsError)
deriving DecidableEq, Repr

/-- How one middleware invocation ends: it answers, calls `next()`, or
calls `next(err)` (equivalently throws). -/
inductive Outcome
  | respond (r : Response)
  | next
  | error (e : JsError)
deriving DecidableEq, Repr

/-- An entry of the Express stack: an ordinary `(req, res, next)` handler
or a four-argument `(err, req, res, next)` error handler. -/
inductive Layer
  | handler (f : Request → Outcome)
  | errorHandler (f : JsError → Request → Outcome)

/-- Express dispatch over the stack in registration order. While no error is
pending, error handlers are skipped; once `next(err)` has been called,
ordinary handlers are skipped until an error handler takes the error. -/
def dispatch : List Layer → Option JsError → Request → Response
  | [], pending, _ => .finalhandler pending
  | .handler f :: rest, none, req =>
    match f req with
    | .respond r => r
    | .next => dispatch rest none req
    | .error e => dispatch rest (some e) req
  | .handler _ :: rest, some e, req => dispatch rest (some e) req
  | .errorHandler _ :: rest, none, req => dispatch rest none req
  | .errorHandler f :: rest, some e, req =>
    match f e req with
    | .respond r => r
    | .next => dispatch rest none req
    | .error e2 => dispatch rest (some e2) req

/-- What matching a layer's path pattern against the request path gives:
the layer takes the path, it does not, or matching itself fails (Express
decodes what a pattern captures and throws `URIError` on a malformed
percent-escape). -/
inductive MatchResult
  | hit
  | miss
  | failed (e : JsError)
deriving DecidableEq, Repr

/-- The options object passed to `cors(...)`. -/
structure CorsOptions where
  origin : Option String → Except JsError Bool
  credentials : Bool

/-- Everything `index.js` requires but does not define. -/
structure Deps where
  /-- Express's matcher for a route path pattern (`app.get(pattern, ...)`). -/
  matchRoute : String → String → MatchResult
  /-- Express's matcher for a mount path pattern (`app.use(pattern, ...)`). -/
  matchMount : String → String → MatchResult
  cors : CorsOptions → Request → Outcome
  json : String → Request → Outcome
  urlencoded : Bool → String → Request → Outcome
  passportInitialize : Request → Outcome
  authRoutes : Request → Outcome
  chatRoutes : Request → Outcome
  quizRoutes : Request → Outcome
  progressRoutes : Request → Outcome
  leaderboardRoutes : Request → Outcome
  static : FilePath → Request → Outcome
  /-- Express's `res.sendFile(file)` without a callback: the file is sent, or
  the failure is handed on with `next(err)` (`next()` for a directory). -/
  sendFile : FilePath → Request → Outcome

/-- The state of the world a handler could observe: the clock and the
mongoose connection's `readyState`. -/
structure World where
  now : Int
  dbReadyState : Nat
deriving DecidableEq, Repr

/-! ## The Express application of `index.js` -/

/-- Lines 14-17. -/
def allowedOrigins : List String :=
  ["https://s72-dhruv-malviya-doraemon-chat-bot.vercel.app", "http://localhost:3000"]

/-- Lines 19-25, the `origin` function given to `cors`. `.ok true` is
`callback(null, true)`, `.error e` is `callback(new Error(...))`. -/
def originCallback (origin : Option String) : Except JsError Bool :=
  if isFalsy origin then .ok true
  else
    match origin with
    | none => .ok true
    | some o =>
      if o ∈ allowedOrigins then .ok true
      else .error ⟨some ("Not allowed by CORS: " ++ o)⟩

/-- Lines 18-27, the object literal passed to `cors`. -/
def corsOptions : CorsOptions :=
  { origin := originCallback, credentials := true }

/-- Express answers `HEAD` through a `GET` route when no `HEAD` route is
registered, so `app.get` takes both methods. -/
def handlesGet (m : Method) : Bool :=
  m == .GET || m == .HEAD

/-- What the route `app.get(pattern, h)` does with a request. Express matches
the path first, and a failure of the match is an error pending for the rest
of the stack whatever the method; a path that matches is handled only for the
methods of the route. -/
def routeLayer (deps : Deps) (pattern : String) (h : Request → Outcome)
    (req : Request) : Outcome :=
  match deps.matchRoute pattern req.path with
  | .failed e => .error e
  | .miss => .next
  | .hit => if handlesGet req.method then h req else .next

/-- What the middleware `app.use(pattern, h)` does with a request; a failure
of the match is an error pending for the rest of the stack. -/
def mountLayer (deps : Deps) (pattern : String) (h : Request → Outcome)
    (req : Request) : Outcome :=
  match deps.matchMount pattern req.path with
  | .failed e => .error e
  | .miss => .next
  | .hit => h req

/-- The layer registered by `app.get(pattern, h)`. -/
def appGet (deps : Deps) (pattern : String) (h : Request → Outcome) : Layer :=
  .handler (routeLayer deps pattern h)

/-- The layer registered by `app.use(pattern, h)`. -/
def appUse (deps : Deps) (pattern : String) (h : Request → Outcome) : Layer :=
  .handler (mountLayer deps pattern h)

/-- Lines 36-42, the `/health` handler. -/
def healthHandler (env : ProcessEnv) (w : World) (_req : Request) : Outcome :=
  .respond (.json 200
    [("status", .str "OK"),
     ("timestamp", .isoTime w.now),
     ("environment", .str (orDefault env.NODE_ENV "development"))])

/-- Line 105. -/
def clientBuildPath : FilePath :=
  .join .dirname "../../client/build"

/-- Lines 109-113, the production wildcard handler. -/
def wildcardHandler (deps : Deps) (req : Request) : Outcome :=
  if startsWith req.path "/api" then
    .respond (.json 404 [("message", .str "API route not found")])
  else
    deps.sendFile (.join clientBuildPath "index.html") req

/-- Lines 140-146, the error handling middleware. -/
def globalErrorHandler (env : ProcessEnv) (err : JsError) (_req : Request) : Outcome :=
  .respond (.json 500
    [("message", .str "Internal server error"),
     ("error",
       if env.NODE_ENV = some "development" then
         match err.message with
         | some m => .str m
         | none => .undefined
       else .undefined)])

/-- Lines 149-151, the 404 handler. -/
def notFoundHandler (_req : Request) : Outcome :=
  .respond (.json 404 [("message", .str "Route not found")])

/-- The stack built by `index.js`, in registration order. -/
def app (deps : Deps) (env : ProcessEnv) (w : World) : List Layer :=
  (if env.NODE_ENV ≠ some "production" then [Layer.handler (deps.cors corsOptions)] else []) ++
  [ .handler (deps.json "10mb"),
    .handler (deps.urlencoded true "10mb"),
    .handler deps.passportInitialize,
    appGet deps "/health" (healthHandler env w),
    appUse deps "/api/auth" deps.authRoutes,
    appUse deps "/api/chat" deps.chatRoutes,
    appUse deps "/api/quiz" deps.quizRoutes,
    appUse deps "/api/progress" deps.progressRoutes,
    appUse deps "/api/leaderboard" deps.leaderboardRoutes ] ++
  (if env.NODE_ENV = some "production" then
    [ .handler (deps.static clientBuildPath),
      appGet deps "*" (wildcardHandler deps) ]
   else []) ++
  [ .errorHandler (globalErrorHandler env),
    appUse deps "*" notFoundHandler ]

/-- The response of the server to one request. -/
def handle (deps : Deps) (env : ProcessEnv) (w : World) (req : Request) : Response :=
  dispatch (app deps env w) none req

/-! ## The Socket.IO relay of `index.js` -/

/-- A connection (socket) identity. -/
abbrev SocketId := Nat

/-- A room key: the JavaScript value handed to `join` / `to`, a string or
`undefined` (`none`). -/
abbrev Room := Option String

/-- The argument of an inbound `sendMessage` event: `undefined`, `null`, or
an object with an optional `receiverId` and further content. -/
inductive Payload
  | undefined
  | null
  | object (receiverId : Option String) (content : String)
deriving DecidableEq, Repr

/-- One outbound event written to one connection. -/
structure Delivery where
  socket : SocketId
  event : String
  data : Payload
deriving DecidableEq, Repr

/-- A line written with `console.log` or `console.error`. -/
inductive LogLine
  | log (text : String)
  | error (label : String) (err : JsError)
deriving DecidableEq, Repr

/-- The relay state: the room membership relation (connection, room) and the
console output so far. -/
structure Relay where
  members : List (SocketId × Room)
  console : List LogLine
deriving DecidableEq, Repr

/-- Modelled from the spec: `socket.join(room)` of the Socket.IO server, which
`index.js` uses but never defines. Join "registers connection under the room",
"idempotent if called multiple times with the same arguments". -/
def socketJoin (members : List (SocketId × Room)) (c : SocketId) (r : Room) :
    List (SocketId × Room) :=
  if (c, r) ∈ members then members else members ++ [(c, r)]

/-- Modelled from the spec: what Socket.IO does when a connection's transport
closes. Disconnect "removes connection from all rooms it was joined to". -/
def leaveAll (members : List (SocketId × Room)) (c : SocketId) : List (SocketId × Room) :=
  members.filter fun m => m.1 ≠ c

/-- Modelled from the spec: the connections currently joined to a room (the
registry maps a room to the set of its connections). -/
def socketsIn (members : List (SocketId × Room)) (r : Room) : List SocketId :=
  ((members.filter fun m => m.2 = r).map Prod.fst).dedup

/-- What `io.to(room).emit(event, data)` did: the deliveries made and the
value it threw, if any. -/
abbrev Emit :=
  List (SocketId × Room) → Room → String → Payload → List Delivery × Option JsError

/-- Modelled from the spec: `io.to(room).emit(event, data)` of the Socket.IO
server object `io`, which `index.js` uses but never defines. Send is
"re-emitted outbound ... to all sockets in room `receiverId`". -/
def ioToEmit : Emit := fun members room event data =>
  ((socketsIn members room).map fun c => { socket := c, event := event, data := data }, none)

/-- What one handler invocation leaves behind: the new relay state, the
deliveries made, and the rejection reason of the handler's promise (`none`
when the handler returned normally or its promise fulfilled). -/
structure Handled where
  relay : Relay
  deliveries : List Delivery
  rejection : Option JsError
deriving DecidableEq, Repr

/-- Interpolation of a room key in a template literal. -/
def renderRoom : Room → String
  | none => "undefined"
  | some s => s

/-- Line 118, the body of the `connection` listener before the handlers are
registered. -/
def onConnection (st : Relay) : Relay :=
  { st with console := st.console ++ [.log "New client connected"] }

/-- Lines 120-123, the `join` handler of connection `c`. -/
def onJoin (st : Relay) (c : SocketId) (userId : Room) : Handled :=
  { relay :=
      { members := socketJoin st.members c userId
        console := st.console ++ [.log ("User " ++ renderRoom userId ++ " joined their room")] }
    deliveries := []
    rejection := none }

/-- The property read `data.receiverId`: a `TypeError` on `undefined` and
`null`. -/
def getReceiverId : Payload → Except JsError Room
  | .undefined =>
    .error ⟨some "Cannot read properties of undefined (reading 'receiverId')"⟩
  | .null =>
    .error ⟨some "Cannot read properties of null (reading 'receiverId')"⟩
  | .object r _ => .ok r

/-- Line 128, the body of the `try` block: the deliveries made and the value
thrown, if any. -/
def sendMessageBody (emit : Emit) (st : Relay) (data : Payload) :
    List Delivery × Option JsError :=
  match getReceiverId data with
  | .error e => ([], some e)
  | .ok room => emit st.members room "receiveMessage" data

/-- Lines 125-132, the `sendMessage` handler: the `try` body, then the
`catch` clause when the body threw. -/
def onSendMessage (emit : Emit) (st : Relay) (data : Payload) : Handled :=
  match sendMessageBody emit st data with
  | (sent, none) => { relay := st, deliveries := sent, rejection := none }
  | (sent, some error) =>
    { relay := { st with console := st.console ++ [.error "Error sending message:" error] }
      deliveries := sent
      rejection := none }

/-- Lines 134-136, the `disconnect` handler. -/
def onDisconnect (st : Relay) : Handled :=
  { relay := { st with console := st.console ++ [.log "Client disconnected"] }
    deliveries := []
    rejection := none }

/-- Modelled from the spec: closure of connection `c`. Socket.IO removes `c`
from its rooms and then emits `disconnect`, which runs the handler of
lines 134-136. -/
def disconnect (st : Relay) (c : SocketId) : Handled :=
  onDisconnect { st with members := leaveAll st.members c }

/-- An inbound event on a connection. -/
inductive SocketEvent
  | join (userId : Room)
  | sendMessage (data : Payload)
  | disconnect
deriving DecidableEq, Repr

/-- The relay's reaction to one event on connection `c`. -/
def handleEvent (emit : Emit) (st : Relay) (c : SocketId) : SocketEvent → Handled
  | .join userId => onJoin st c userId
  | .sendMessage data => onSendMessage emit st data
  | .disconnect => disconnect st c

/-- The relay run over a sequence of events, collecting every delivery. -/
def runEvents (emit : Emit) : Relay → List (SocketId × SocketEvent) → Relay × List Delivery
  | st, [] => (st, [])
  | st, (c, ev) :: rest =>
    let h := handleEvent emit st c ev
    let r := runEvents emit h.relay rest
    (r.1, h.deliveries ++ r.2)

/-! ## Process signals -/

/-- The state of the promise returned by `mongoose.connection.close()` when
the handler awaits it. -/
inductive Settled
  | fulfilled
  | rejected (reason : JsError)
  | pending
deriving DecidableEq, Repr

/-- An observable action of the `SIGINT` handler. -/
inductive Effect
  | closeConnection
  | log (text : String)
  | error (label : String) (err : JsError)
  | exit (code : Nat)
deriving DecidableEq, Repr

/-- Lines 161-170, the `SIGINT` handler, given how the close settles. -/
def onSIGINT (close : Settled) : List Effect :=
  .closeConnection ::
    match close with
    | .fulfilled => [.log "MongoDB connection closed through app termination", .exit 0]
    | .rejected err => [.error "Error during app termination:" err, .exit 1]
    | .pending => []

/-- The code the process exits with: that of the first `process.exit`
reached, `none` when none is reached. -/
def exitCode : List Effect → Option Nat
  | [] => none
  | .exit code :: _ => some code
  | _ :: rest => exitCode rest

/-! ## A concrete instance of the dependencies -/

/-- Lower-cased characters of a string. -/
def lowerChars (s : String) : List Char :=
  s.toList.map Char.toLower

/-- The value of a hexadecimal digit. -/
def hexValue (c : Char) : Option Nat :=
  if '0' ≤ c ∧ c ≤ '9' then some (c.toNat - 48)
  else if 'a' ≤ c ∧ c ≤ 'f' then some (c.toNat - 87)
  else if 'A' ≤ c ∧ c ≤ 'F' then some (c.toNat - 55)
  else none

/-- The byte of a percent-escape `%XX` at the head of the input, and the
input after it. -/
def readEscape : List Char → Option (Nat × List Char)
  | '%' :: a :: b :: rest =>
    match hexValue a, hexValue b with
    | some x, some y => some (16 * x + y, rest)
    | _, _ => none
  | _ => none

/-- Reads `n` escaped UTF-8 continuation bytes (`10xxxxxx`), accumulating the
code point. -/
def readContinuation : Nat → Nat → List Char → Option (Nat × List Char)
  | 0, acc, cs => some (acc, cs)
  | n + 1, acc, cs =>
    match readEscape cs with
    | some (b, rest) =>
      if 128 ≤ b ∧ b < 192 then readContinuation n (acc * 64 + (b - 128)) rest else none
    | none => none

/-- Whether `decodeURIComponent` succeeds: every `%` starts an escape `%XX`,
and the escaped bytes form valid UTF-8 (no stray continuation byte, no
overlong form, no surrogate, nothing above U+10FFFF). The first argument
bounds the number of steps; the length of the input suffices. -/
def decodableAux : Nat → List Char → Bool
  | _, [] => true
  | 0, _ :: _ => false
  | fuel + 1, c :: cs =>
    if c = '%' then
      match readEscape (c :: cs) with
      | none => false
      | some (b, rest) =>
        if b < 128 then decodableAux fuel rest
        else if 192 ≤ b ∧ b < 224 then
          match readContinuation 1 (b - 192) rest with
          | some (v, rest2) => 128 ≤ v && decodableAux fuel rest2
          | none => false
        else if 224 ≤ b ∧ b < 240 then
          match readContinuation 2 (b - 224) rest with
          | some (v, rest2) =>
            2048 ≤ v && !(55296 ≤ v && v < 57344) && decodableAux fuel rest2
          | none => false
        else if 240 ≤ b ∧ b < 248 then
          match readContinuation 3 (b - 240) rest with
          | some (v, rest2) => 65536 ≤ v && v < 1114112 && decodableAux fuel rest2
          | none => false
        else false
    else decodableAux fuel cs

/-- Whether `decodeURIComponent(path)` succeeds. -/
def decodable (path : String) : Bool :=
  decodableAux path.length path.toList

/-- The error Express raises when it cannot decode what a pattern captured
(a `URIError` with status 400). -/
def decodeError (path : String) : JsError :=
  ⟨some ("Failed to decode param '" ++ path ++ "'")⟩

/-- Express 4's default matching of a route path. The pattern `'*'` captures
the whole path, which must decode; a literal pattern is compared
case-insensitively, with an optional trailing slash, and captures nothing. -/
def expressMatchRoute (pattern path : String) : MatchResult :=
  if pattern = "*" then
    if decodable path then .hit else .failed (decodeError path)
  else if lowerChars path == lowerChars pattern ||
      lowerChars path == lowerChars pattern ++ ['/'] then .hit
  else .miss

/-- Express 4's default matching of a mount path. The pattern `'*'` captures
the whole path, which must decode; a literal pattern matches as a route path
does, or as a prefix followed by a slash. -/
def expressMatchMount (pattern path : String) : MatchResult :=
  if pattern = "*" then
    if decodable path then .hit else .failed (decodeError path)
  else if lowerChars path == lowerChars pattern ||
      lowerChars path == lowerChars pattern ++ ['/'] ||
      (lowerChars pattern ++ ['/']).isPrefixOf (lowerChars path) then .hit
  else .miss

/-- The `cors` package around an `origin` function: an error from the
function goes to `next(err)`, a refusal without error to `next()`, and an
accepted request gets its headers and either the preflight answer (204,
for `OPTIONS`) or `next()`. -/
def corsPackage (options : CorsOptions) (req : Request) : Outcome :=
  match options.origin req.origin with
  | .error e => .error e
  | .ok false => .next
  | .ok true =>
    if req.method = .OPTIONS then .respond (.library "cors preflight" 204) else .next

/-- The middleware `express.static` over a bundle directory holding only
`index.html`: it answers a `GET` or `HEAD` of `/` and of `/index.html` and
passes every other request on. -/
def staticIndexOnly (_root : FilePath) (req : Request) : Outcome :=
  if handlesGet req.method && (req.path == "/" || req.path == "/index.html") then
    .respond (.library "static index.html" 200)
  else .next

/-- A deployment used to evaluate the server on concrete requests: Express
matching, the `cors` package, parsers and passport that pass every request
on, route groups that answer whatever reaches them, and a bundle holding only
`index.html`, which `res.sendFile` can send. -/
def sampleDeps : Deps where
  matchRoute := expressMatchRoute
  matchMount := expressMatchMount
  cors := corsPackage
  json := fun _ _ => .next
  urlencoded := fun _ _ _ => .next
  passportInitialize := fun _ => .next
  authRoutes := fun _ => .respond (.library "authRoutes" 200)
  chatRoutes := fun _ => .respond (.library "chatRoutes" 200)
  quizRoutes := fun _ => .respond (.library "quizRoutes" 200)
  progressRoutes := fun _ => .respond (.library "progressRoutes" 200)
  leaderboardRoutes := fun _ => .respond (.library "leaderboardRoutes" 200)
  static := staticIndexOnly
  sendFile := fun file _ => .respond (.sendFile file)

/-- The same deployment before the front-end is built: the bundle directory
holds no file, so `express.static` passes every request on and
`res.sendFile` fails and hands its error on. -/
def unbuiltDeps : Deps :=
  { sampleDeps with
    static := fun _ _ => .next
    sendFile := fun _ _ => .error ⟨some "ENOENT: no such file or directory"⟩ }

/-! ## Reading responses and classifying requests -/

/-- The property read `o[key]`: `undefined` for a missing property. -/
def getField (o : JsonObject) (key : String) : JsonValue :=
  match o.lookup key with
  | some v => v
  | none => .undefined

/-- The status code of the answer, when the handler answered with JSON. -/
def jsonStatus : Outcome → Option Nat
  | .respond (.json status _) => some status
  | _ => none

/-- The JSON body of the answer (empty when the handler did not answer with
JSON). -/
def jsonBody : Outcome → JsonObject
  | .respond (.json _ body) => body
  | _ => []

/-- The request is passed on (`next()`) by every library middleware that is
installed ahead of the handlers of `index.js`: `cors` (installed outside
production), the two body parsers, `passport.initialize()`, and
`express.static` (installed in production). -/
def passesMiddleware (deps : Deps) (env : ProcessEnv) (req : Request) : Prop :=
  (env.NODE_ENV ≠ some "production" → deps.cors corsOptions req = .next) ∧
  deps.json "10mb" req = .next ∧
  deps.urlencoded true "10mb" req = .next ∧
  deps.passportInitialize req = .next ∧
  (env.NODE_ENV = some "production" → deps.static clientBuildPath req = .next)

/-- The route `app.get(pattern, ...)` does not take the request: the path
does not match, or it matches and the method is not one of the route. -/
def routeSkips (deps : Deps) (pattern : String) (req : Request) : Prop :=
  deps.matchRoute pattern req.path = .miss ∨
  (deps.matchRoute pattern req.path = .hit ∧ req.method ≠ .GET ∧ req.method ≠ .HEAD)

/-- The route group mounted with `app.use(pattern, router)` does not take the
request: the path is not under the mount, or the router passes it on. -/
def mountSkips (deps : Deps) (pattern : String) (router : Request → Outcome)
    (req : Request) : Prop :=
  deps.matchMount pattern req.path = .miss ∨
  (deps.matchMount pattern req.path = .hit ∧ router req = .next)

/-- No registered route takes the request: neither `/health` nor any of the
five route groups. -/
def unmatched (deps : Deps) (req : Request) : Prop :=
  routeSkips deps "/health" req ∧
  mountSkips deps "/api/auth" deps.authRoutes req ∧
  mountSkips deps "/api/chat" deps.chatRoutes req ∧
  mountSkips deps "/api/quiz" deps.quizRoutes req ∧
  mountSkips deps "/api/progress" deps.progressRoutes req ∧
  mountSkips deps "/api/leaderboard" deps.leaderboardRoutes req

/-- Both `'*'` layers of `index.js` match the request path, which for Express
means that the path decodes (no malformed percent-escape). -/
def wildcardsMatch (deps : Deps) (req : Request) : Prop :=
  deps.matchRoute "*" req.path = .hit ∧ deps.matchMount "*" req.path = .hit

/-! ## Helper lemmas -/

/-- Membership in the list of sockets of a room is membership in the registry. -/
theorem mem_socketsIn (members : List (SocketId × Room)) (r : Room) (c : SocketId) :
    c ∈ socketsIn members r ↔ (c, r) ∈ members := by
  simp [socketsIn]

/-- A room lists each of its sockets once. -/
theorem nodup_socketsIn (members : List (SocketId × Room)) (r : Room) :
    (socketsIn members r).Nodup := by
  simp [socketsIn, List.nodup_dedup]

/-- Leaving all rooms removes the pairs of that connection and no other. -/
theorem mem_leaveAll (members : List (SocketId × Room)) (c d : SocketId) (r : Room) :
    (d, r) ∈ leaveAll members c ↔ (d, r) ∈ members ∧ d ≠ c := by
  simp [leaveAll]

/-- Joining adds the one pair (connection, room) and nothing else. -/
theorem mem_socketJoin (members : List (SocketId × Room)) (c d : SocketId) (r q : Room) :
    (d, q) ∈ socketJoin members c r ↔ (d, q) ∈ members ∨ (d = c ∧ q = r) := by
  unfold socketJoin
  split
  · constructor
    · intro h; exact Or.inl h
    · rintro (h | ⟨rfl, rfl⟩)
      · exact h
      · assumption
  · simp

/-- While connection `c` is in no room, an event on another connection leaves
`c` in no room and delivers nothing to `c`. -/
theorem handleEvent_keeps_out (st : Relay) (c d : SocketId) (ev : SocketEvent)
    (hout : ∀ r, (c, r) ∉ st.members) (hd : d ≠ c) :
    (∀ r, (c, r) ∉ (handleEvent ioToEmit st d ev).relay.members) ∧
    (∀ x ∈ (handleEvent ioToEmit st d ev).deliveries, x.socket ≠ c) := by
  cases ev with
  | join userId =>
    refine ⟨?_, ?_⟩
    · intro r hmem
      simp only [handleEvent, onJoin] at hmem
      rcases (mem_socketJoin _ _ _ _ _).1 hmem with h | ⟨h, _⟩
      · exact hout r h
      · exact hd h.symm
    · intro x hx
      simp [handleEvent, onJoin] at hx
  | sendMessage data =>
    cases data with
    | undefined =>
      refine ⟨?_, ?_⟩
      · intro r hmem
        exact hout r (by simpa [handleEvent, onSendMessage, sendMessageBody, getReceiverId] using hmem)
      · intro x hx
        simp [handleEvent, onSendMessage, sendMessageBody, getReceiverId] at hx
    | null =>
      refine ⟨?_, ?_⟩
      · intro r hmem
        exact hout r (by simpa [handleEvent, onSendMessage, sendMessageBody, getReceiverId] using hmem)
      · intro x hx
        simp [handleEvent, onSendMessage, sendMessageBody, getReceiverId] at hx
    | object receiverId content =>
      refine ⟨?_, ?_⟩
      · intro r hmem
        exact hout r (by simpa [handleEvent, onSendMessage, sendMessageBody, getReceiverId, ioToEmit] using hmem)
      · intro x hx
        simp only [handleEvent, onSendMessage, sendMessageBody, getReceiverId, ioToEmit,
          List.mem_map] at hx
        obtain ⟨s, hs, rfl⟩ := hx
        intro hsc
        exact hout receiverId (by
          have := (mem_socketsIn st.members receiverId s).1 hs
          simpa [← hsc] using this)
  | disconnect =>
    refine ⟨?_, ?_⟩
    · intro r hmem
      simp only [handleEvent, disconnect, onDisconnect] at hmem
      exact hout r ((mem_leaveAll _ _ _ _).1 hmem).1
    · intro x hx
      simp [handleEvent, disconnect, onDisconnect] at hx

/-- While connection `c` is in no room, a run of events on other connections
delivers nothing to `c`. -/
theorem runEvents_keeps_out (c : SocketId) (later : List (SocketId × SocketEvent)) :
    ∀ st : Relay, (∀ r, (c, r) ∉ st.members) → (∀ e ∈ later, e.1 ≠ c) →
      ∀ x ∈ (runEvents ioToEmit st later).2, x.socket ≠ c := by
  induction later with
  | nil => intro st _ _ x hx; simp [runEvents] at hx
  | cons e rest ih =>
    intro st hout hothers x hx
    obtain ⟨d, ev⟩ := e
    have hd : d ≠ c := hothers (d, ev) (List.mem_cons_self _ _)
    have hstep := handleEvent_keeps_out st c d ev hout hd
    simp only [runEvents, List.mem_append] at hx
    rcases hx with hx | hx
    · exact hstep.2 x hx
    · exact ih _ hstep.1 (fun e he => hothers e (List.mem_cons_of_mem _ he)) x hx

/-! ## Relay properties -/

/-- C1: a `sendMessage` whose envelope carries a `receiverId` hands room
`receiverId`, the event `receiveMessage` and the envelope to
`io.to(...).emit`, whatever that does; with the registry of the
specification the event reaches exactly the connections joined to room
`receiverId`, once each; when no connection is joined to that room nothing is
delivered; in every case the handler's promise fulfils, nothing is logged and
the registry is unchanged. -/
theorem sendMessage_delivers_to_room (st : Relay) (receiverId content : String) :
    (∀ emit : Emit, sendMessageBody emit st (.object (some receiverId) content) =
        emit st.members (some receiverId) "receiveMessage"
          (.object (some receiverId) content)) ∧
    (∀ c, { socket := c, event := "receiveMessage",
            data := Payload.object (some receiverId) content } ∈
          (onSendMessage ioToEmit st (.object (some receiverId) content)).deliveries ↔
        (c, some receiverId) ∈ st.members) ∧
    (∀ x ∈ (onSendMessage ioToEmit st (.object (some receiverId) content)).deliveries,
        x.event = "receiveMessage" ∧ x.data = .object (some receiverId) content ∧
        (x.socket, some receiverId) ∈ st.members) ∧
    (onSendMessage ioToEmit st (.object (some receiverId) content)).deliveries.Nodup ∧
    ((onSendMessage ioToEmit st (.object (some receiverId) content)).deliveries = [] ↔
        ∀ c, (c, some receiverId) ∉ st.members) ∧
    (onSendMessage ioToEmit st (.object (some receiverId) content)).rejection = none ∧
    (onSendMessage ioToEmit st (.object (some receiverId) content)).relay = st := by
  have hd : (onSendMessage ioToEmit st (.object (some receiverId) content)).deliveries =
      (socketsIn st.members (some receiverId)).map fun c =>
        { socket := c, event := "receiveMessage", data := .object (some receiverId) content } := by
    simp [onSendMessage, sendMessageBody, getReceiverId, ioToEmit]
  refine ⟨fun _ => rfl, ?_, ?_, ?_, ?_, ?_, ?_⟩
  · intro c
    rw [hd, List.mem_map]
    constructor
    · rintro ⟨s, hs, heq⟩
      have : s = c := by simpa using congrArg Delivery.socket heq
      exact (mem_socketsIn _ _ _).1 (this ▸ hs)
    · intro h
      exact ⟨c, (mem_socketsIn _ _ _).2 h, rfl⟩
  · intro x hx
    rw [hd, List.mem_map] at hx
    obtain ⟨s, hs, rfl⟩ := hx
    exact ⟨rfl, rfl, (mem_socketsIn _ _ _).1 hs⟩
  · rw [hd]
    refine (nodup_socketsIn st.members (some receiverId)).map ?_
    intro a b hab
    simpa using congrArg Delivery.socket hab
  · rw [hd, List.map_eq_nil_iff, List.eq_nil_iff_forall_not_mem]
    constructor
    · intro h c hc; exact h c ((mem_socketsIn _ _ _).2 hc)
    · intro h c hc; exact h c ((mem_socketsIn _ _ _).1 hc)
  · simp [onSendMessage, sendMessageBody, getReceiverId, ioToEmit]
  · simp [onSendMessage, sendMessageBody, getReceiverId, ioToEmit]

/-- C7: after the disconnect of connection `c` has been handled, `c` is a
member of no room, the membership of every other connection is as before, and
no later run of events on other connections delivers anything to `c`. -/
theorem disconnect_leaves_all_rooms (st : Relay) (c : SocketId)
    (later : List (SocketId × SocketEvent)) (hothers : ∀ e ∈ later, e.1 ≠ c) :
    (∀ r, (c, r) ∉ (disconnect st c).relay.members) ∧
    (∀ d r, d ≠ c → ((d, r) ∈ (disconnect st c).relay.members ↔ (d, r) ∈ st.members)) ∧
    (∀ x ∈ (runEvents ioToEmit (disconnect st c).relay later).2, x.socket ≠ c) := by
  have hout : ∀ r, (c, r) ∉ (disconnect st c).relay.members := by
    intro r hmem
    simp only [disconnect, onDisconnect] at hmem
    exact ((mem_leaveAll _ _ _ _).1 hmem).2 rfl
  refine ⟨hout, ?_, ?_⟩
  · intro d r hd
    simp only [disconnect, onDisconnect]
    rw [mem_leaveAll]
    exact ⟨fun h => h.1, fun h => ⟨h, hd⟩⟩
  · exact runEvents_keeps_out c later _ hout hothers

/-- Witness for C7: connection 1, joined to rooms `u` and `v` beside
connection 2, disconnects; connection 2 then joins `v` and sends to `u` and to
`v`. -/
theorem disconnect_leaves_all_rooms_witness :
    (∀ e ∈ [((2 : SocketId), SocketEvent.join (some "v")),
            (2, SocketEvent.sendMessage (.object (some "u") "hi")),
            (2, SocketEvent.sendMessage (.object (some "v") "ho"))], e.1 ≠ 1) ∧
    (runEvents ioToEmit
      (disconnect ⟨[(1, some "u"), (2, some "u"), (1, some "v")], []⟩ 1).relay
      [(2, SocketEvent.join (some "v")),
       (2, SocketEvent.sendMessage (.object (some "u") "hi")),
       (2, SocketEvent.sendMessage (.object (some "v") "ho"))]).2 =
      [⟨2, "receiveMessage", .object (some "u") "hi"⟩,
       ⟨2, "receiveMessage", .object (some "v") "ho"⟩] ∧
    ((∀ r, ((1 : SocketId), r) ∉
        (disconnect ⟨[(1, some "u"), (2, some "u"), (1, some "v")], []⟩ 1).relay.members) ∧
     (∀ d r, d ≠ 1 →
        ((d, r) ∈ (disconnect ⟨[(1, some "u"), (2, some "u"), (1, some "v")], []⟩ 1).relay.members ↔
         (d, r) ∈ [((1 : SocketId), (some "u" : Room)), (2, some "u"), (1, some "v")])) ∧
     (∀ x ∈ (runEvents ioToEmit
          (disconnect ⟨[(1, some "u"), (2, some "u"), (1, some "v")], []⟩ 1).relay
          [(2, SocketEvent.join (some "v")),
           (2, SocketEvent.sendMessage (.object (some "u") "hi")),
           (2, SocketEvent.sendMessage (.object (some "v") "ho"))]).2, x.socket ≠ 1)) :=
  ⟨by decide, by decide,
   disconnect_leaves_all_rooms ⟨[(1, some "u"), (2, some "u"), (1, some "v")], []⟩ 1 _ (by decide)⟩

/-- C8: whatever the payload and whatever `io.to(...).emit` does, the
`sendMessage` handler's promise fulfils and the room membership is unchanged.
For an object payload the handler calls `emit` with room `receiverId`, event
`receiveMessage` and the payload: what `emit` throws is caught and logged
with `console.error` as `Error sending message:` with the thrown value, and
when `emit` throws nothing the console is untouched; the deliveries are those
`emit` made. For `undefined` and `null` the `TypeError` of reading
`receiverId` is caught and logged the same way, and nothing is emitted. -/
theorem sendMessage_never_rejects (emit : Emit) (st : Relay) (data : Payload)
    (receiverId : Option String) (content : String) :
    (onSendMessage emit st data).rejection = none ∧
    (onSendMessage emit st data).relay.members = st.members ∧
    (onSendMessage emit st (.object receiverId content)).relay.console =
      (match (emit st.members receiverId "receiveMessage" (.object receiverId content)).2 with
       | some thrown => st.console ++ [.error "Error sending message:" thrown]
       | none => st.console) ∧
    (onSendMessage emit st (.object receiverId content)).deliveries =
      (emit st.members receiverId "receiveMessage" (.object receiverId content)).1 ∧
    (onSendMessage emit st .undefined).relay.console =
      st.console ++ [.error "Error sending message:"
        ⟨some "Cannot read properties of undefined (reading 'receiverId')"⟩] ∧
    (onSendMessage emit st .undefined).deliveries = [] ∧
    (onSendMessage emit st .null).relay.console =
      st.console ++ [.error "Error sending message:"
        ⟨some "Cannot read properties of null (reading 'receiverId')"⟩] ∧
    (onSendMessage emit st .null).deliveries = [] := by
  refine ⟨?_, ?_, ?_, ?_, rfl, rfl, rfl, rfl⟩
  · unfold onSendMessage; split <;> rfl
  · unfold onSendMessage; split <;> rfl
  · have hbody : sendMessageBody emit st (.object receiverId content) =
        emit st.members receiverId "receiveMessage" (.object receiverId content) := rfl
    unfold onSendMessage
    rw [hbody]
    split
    · next sent h => rw [h]
    · next sent e h => rw [h]
  · have hbody : sendMessageBody emit st (.object receiverId content) =
        emit st.members receiverId "receiveMessage" (.object receiverId content) := rfl
    unfold onSendMessage
    rw [hbody]
    split
    · next sent h => rw [h]
    · next sent e h => rw [h]

/-! ## HTTP shell properties -/

/-- The stack is the same in production whatever `cors` middleware the
dependencies provide, and the response with it. -/
theorem app_production_ignores_cors (deps : Deps) (w : World)
    (other : CorsOptions → Request → Outcome) :
    app { deps with cors := other } ⟨some "production"⟩ w = app deps ⟨some "production"⟩ w := by
  simp only [app, appGet, appUse]
  rfl

/-- C2 as stated fails: an `Origin` header that is present but empty is not
absent and not on the allow-list, yet the origin callback accepts it. -/
theorem originCallback_accepts_empty_origin :
    originCallback (some "") = .ok true ∧
    ¬ ((some "" : Option String) = none ∨ "" ∈ allowedOrigins) :=
  ⟨rfl, by decide⟩

/-- C2 amended: the origin callback accepts exactly when the origin is absent,
is the empty string, or is on the allow-list; every other origin is rejected
with the error `Not allowed by CORS: <origin>`; and in production the server
does not depend on the `cors` middleware at all. -/
theorem originCallback_accepts_iff (origin : Option String) :
    (originCallback origin = .ok true ↔
      (origin = none ∨ origin = some "" ∨ ∃ o ∈ allowedOrigins, origin = some o)) ∧
    (originCallback origin = .ok true ∨
      ∃ o, origin = some o ∧ originCallback origin = .error ⟨some ("Not allowed by CORS: " ++ o)⟩) ∧
    (∀ (deps : Deps) (w : World) (other : CorsOptions → Request → Outcome) (req : Request),
      handle { deps with cors := other } ⟨some "production"⟩ w req =
        handle deps ⟨some "production"⟩ w req) := by
  refine ⟨?_, ?_, ?_⟩
  · cases origin with
    | none => simp [originCallback, isFalsy]
    | some o =>
      by_cases h0 : o = ""
      · subst h0; simp [originCallback, isFalsy]
      · by_cases hmem : o ∈ allowedOrigins
        · simp [originCallback, isFalsy, h0, hmem]
        · simp [originCallback, isFalsy, h0, hmem]
  · cases origin with
    | none => left; simp [originCallback, isFalsy]
    | some o =>
      by_cases h0 : o = ""
      · subst h0; left; simp [originCallback, isFalsy]
      · by_cases hmem : o ∈ allowedOrigins
        · left; simp [originCallback, isFalsy, h0, hmem]
        · right; exact ⟨o, rfl, by simp [originCallback, isFalsy, h0, hmem]⟩
  · intro deps w other req
    unfold handle
    rw [app_production_ignores_cors]

/-- C5: the global error handler answers every error, under every `NODE_ENV`,
with status 500 and the message `Internal server error`; the `error` property
is `undefined` or `err.message`, it is `undefined` whenever `NODE_ENV` is
`production`, and so it carries detail only outside production. -/
theorem globalErrorHandler_hides_detail_in_production (env : ProcessEnv) (err : JsError)
    (req : Request) :
    jsonStatus (globalErrorHandler env err req) = some 500 ∧
    getField (jsonBody (globalErrorHandler env err req)) "message" = .str "Internal server error" ∧
    (getField (jsonBody (globalErrorHandler env err req)) "error" = .undefined ∨
      ∃ m, err.message = some m ∧
        getField (jsonBody (globalErrorHandler env err req)) "error" = .str m) ∧
    (jsonBody (globalErrorHandler env err req)).map Prod.fst = ["message", "error"] ∧
    (¬ getField (jsonBody (globalErrorHandler env err req)) "error" = .undefined ↔
      (env.NODE_ENV = some "development" ∧ ∃ m, err.message = some m)) ∧
    (getField (jsonBody (globalErrorHandler env err req)) "error" = .undefined ∨
      ¬ env.NODE_ENV = some "production") ∧
    getField (jsonBody (globalErrorHandler ⟨some "production"⟩ err req)) "error" = .undefined := by
  obtain ⟨nodeEnv⟩ := env
  obtain ⟨message⟩ := err
  by_cases hdev : nodeEnv = some "development"
  · subst hdev
    cases message <;>
      simp [globalErrorHandler, jsonStatus, jsonBody, getField, List.lookup]
  · simp [globalErrorHandler, jsonStatus, jsonBody, getField, List.lookup, hdev]

/-- C10: the `error` property of the global error handler's answer is
`err.message` when `NODE_ENV` is exactly `development` and `undefined` for
every other value; in particular it is `undefined` when `NODE_ENV` is unset or
empty, although `/health` then reports the environment `development`, and when
it is `test` or `production`. -/
theorem globalErrorHandler_detail_only_in_development (env : ProcessEnv) (err : JsError)
    (req : Request) (w : World) (m : String) :
    getField (jsonBody (globalErrorHandler env err req)) "error" =
      (if env.NODE_ENV = some "development" then
        (match err.message with
         | some text => JsonValue.str text
         | none => JsonValue.undefined)
       else JsonValue.undefined) ∧
    (getField (jsonBody (globalErrorHandler env ⟨some m⟩ req)) "error" = .str m ↔
      env.NODE_ENV = some "development") ∧
    (getField (jsonBody (healthHandler ⟨none⟩ w req)) "environment" = .str "development" ∧
      getField (jsonBody (globalErrorHandler ⟨none⟩ err req)) "error" = .undefined) ∧
    (getField (jsonBody (healthHandler ⟨some ""⟩ w req)) "environment" = .str "development" ∧
      getField (jsonBody (globalErrorHandler ⟨some ""⟩ err req)) "error" = .undefined) ∧
    getField (jsonBody (globalErrorHandler ⟨some "test"⟩ err req)) "error" = .undefined ∧
    getField (jsonBody (globalErrorHandler ⟨some "production"⟩ err req)) "error" = .undefined := by
  obtain ⟨nodeEnv⟩ := env
  refine ⟨?_, ?_, ?_, ?_, ?_, ?_⟩
  · simp [globalErrorHandler, jsonBody, getField, List.lookup]
  · by_cases hdev : nodeEnv = some "development"
    · simp [globalErrorHandler, jsonBody, getField, List.lookup, hdev]
    · simp [globalErrorHandler, jsonBody, getField, List.lookup, hdev]
  · simp [globalErrorHandler, healthHandler, orDefault, jsonBody, getField, List.lookup]
  · simp [globalErrorHandler, healthHandler, orDefault, jsonBody, getField, List.lookup]
  · simp [globalErrorHandler, jsonBody, getField, List.lookup]
  · simp [globalErrorHandler, jsonBody, getField, List.lookup]

/-- C9: under every `NODE_ENV` and every database state the `/health` handler
answers with status 200 and exactly the properties `status` (`OK`),
`timestamp` (the ISO string of the current time) and `environment`, which is
`NODE_ENV` when that is a non-empty string and `development` when it is unset
or empty; the answer is the same for every database state. -/
theorem healthHandler_response (env : ProcessEnv) (w : World) (req : Request) (s : String)
    (db : Nat) :
    jsonStatus (healthHandler env w req) = some 200 ∧
    (jsonBody (healthHandler env w req)).map Prod.fst = ["status", "timestamp", "environment"] ∧
    getField (jsonBody (healthHandler env w req)) "status" = .str "OK" ∧
    getField (jsonBody (healthHandler env w req)) "timestamp" = .isoTime w.now ∧
    getField (jsonBody (healthHandler ⟨some s⟩ w req)) "environment" =
      .str (if s = "" then "development" else s) ∧
    getField (jsonBody (healthHandler ⟨none⟩ w req)) "environment" = .str "development" ∧
    healthHandler env { w with dbReadyState := db } req = healthHandler env w req := by
  refine ⟨rfl, rfl, rfl, rfl, ?_, ?_, rfl⟩
  · simp [healthHandler, orDefault, jsonBody, getField, List.lookup]
  · simp [healthHandler, orDefault, jsonBody, getField, List.lookup]

/-! ## Process signals -/

/-- C6: the `SIGINT` handler first asks for the database connection to be
closed; the process exits with code 0 exactly when the close succeeds, and
with code 1 when the close fails. -/
theorem onSIGINT_exit_code (close : Settled) (reason : JsError) :
    (onSIGINT close).head? = some .closeConnection ∧
    (exitCode (onSIGINT close) = some 0 ↔ close = .fulfilled) ∧
    exitCode (onSIGINT (.rejected reason)) = some 1 ∧
    (exitCode (onSIGINT close) = some 1 ↔ ∃ e, close = .rejected e) := by
  cases close <;> simp [onSIGINT, exitCode]


/-! ## Unmatched requests -/

/-- The methods a `GET` route takes are `GET` and `HEAD`. -/
theorem handlesGet_iff (m : Method) : handlesGet m = true ↔ m = .GET ∨ m = .HEAD := by
  cases m <;> simp [handlesGet]

/-- A route that skips the request passes it on. -/
theorem routeLayer_skips (deps : Deps) (pattern : String) (h : Request → Outcome)
    (req : Request) (hskip : routeSkips deps pattern req) :
    routeLayer deps pattern h req = .next := by
  unfold routeLayer
  rcases hskip with hm | ⟨hm, hget, hhead⟩
  · rw [hm]
  · have hno : handlesGet req.method = false := by
      cases hg : handlesGet req.method with
      | false => rfl
      | true => rcases (handlesGet_iff _).1 hg with h | h
                · exact absurd h hget
                · exact absurd h hhead
    rw [hm]; simp [hno]

/-- A mount that skips the request passes it on. -/
theorem mountLayer_skips (deps : Deps) (pattern : String) (router : Request → Outcome)
    (req : Request) (hskip : mountSkips deps pattern router req) :
    mountLayer deps pattern router req = .next := by
  unfold mountLayer
  rcases hskip with hm | ⟨hm, hnext⟩
  · rw [hm]
  · rw [hm]; exact hnext

/-- Outside production a request that the library middleware passes on, that
no registered route takes and that the final `'*'` layer matches ends in the
404 handler. -/
theorem handle_unmatched_outside_production (deps : Deps) (env : ProcessEnv) (w : World)
    (req : Request) (hmw : passesMiddleware deps env req) (hun : unmatched deps req)
    (hstar : deps.matchMount "*" req.path = .hit) (henv : env.NODE_ENV ≠ some "production") :
    handle deps env w req = .json 404 [("message", .str "Route not found")] := by
  obtain ⟨hcors, hjson, hurl, hpass, _⟩ := hmw
  obtain ⟨hhealth, hauth, hchat, hquiz, hprog, hlead⟩ := hun
  have hc := hcors henv
  have hlast : mountLayer deps "*" notFoundHandler req =
      .respond (.json 404 [("message", .str "Route not found")]) := by
    unfold mountLayer; rw [hstar]; rfl
  simp [handle, app, appGet, appUse, dispatch, henv, hc, hjson, hurl, hpass,
    routeLayer_skips deps "/health" (healthHandler env w) req hhealth,
    mountLayer_skips deps _ _ req hauth, mountLayer_skips deps _ _ req hchat,
    mountLayer_skips deps _ _ req hquiz, mountLayer_skips deps _ _ req hprog,
    mountLayer_skips deps _ _ req hlead, hlast]

/-- In production a request that the library middleware passes on, that no
registered route takes and that both `'*'` layers match ends in the 404
handler when its method is neither `GET` nor `HEAD`. -/
theorem handle_unmatched_production_other (deps : Deps) (env : ProcessEnv) (w : World)
    (req : Request) (hmw : passesMiddleware deps env req) (hun : unmatched deps req)
    (hstar : wildcardsMatch deps req) (henv : env.NODE_ENV = some "production")
    (hget : handlesGet req.method = false) :
    handle deps env w req = .json 404 [("message", .str "Route not found")] := by
  obtain ⟨_, hjson, hurl, hpass, hstatic⟩ := hmw
  obtain ⟨hhealth, hauth, hchat, hquiz, hprog, hlead⟩ := hun
  have hst := hstatic henv
  have hwild : routeLayer deps "*" (wildcardHandler deps) req = .next := by
    unfold routeLayer; rw [hstar.1]; simp [hget]
  have hlast : mountLayer deps "*" notFoundHandler req =
      .respond (.json 404 [("message", .str "Route not found")]) := by
    unfold mountLayer; rw [hstar.2]; rfl
  simp [handle, app, appGet, appUse, dispatch, henv, hst, hjson, hurl, hpass,
    routeLayer_skips deps "/health" (healthHandler env w) req hhealth,
    mountLayer_skips deps _ _ req hauth, mountLayer_skips deps _ _ req hchat,
    mountLayer_skips deps _ _ req hquiz, mountLayer_skips deps _ _ req hprog,
    mountLayer_skips deps _ _ req hlead, hwild, hlast]

/-- In production a `GET` or `HEAD` that the library middleware passes on,
that no registered route takes and that both `'*'` layers match is answered
by the wildcard handler; when that handler passes the request on the 404
handler answers, and when it fails the global error handler does. -/
theorem handle_unmatched_production_get (deps : Deps) (env : ProcessEnv) (w : World)
    (req : Request) (hmw : passesMiddleware deps env req) (hun : unmatched deps req)
    (hstar : wildcardsMatch deps req) (henv : env.NODE_ENV = some "production")
    (hget : handlesGet req.method = true) :
    handle deps env w req =
      match wildcardHandler deps req with
      | .respond r => r
      | .next => .json 404 [("message", .str "Route not found")]
      | .error _ =>
        .json 500 [("message", .str "Internal server error"), ("error", .undefined)] := by
  obtain ⟨_, hjson, hurl, hpass, hstatic⟩ := hmw
  obtain ⟨hhealth, hauth, hchat, hquiz, hprog, hlead⟩ := hun
  have hst := hstatic henv
  have hwild : routeLayer deps "*" (wildcardHandler deps) req = wildcardHandler deps req := by
    unfold routeLayer; rw [hstar.1]; simp [hget]
  have hlast : mountLayer deps "*" notFoundHandler req =
      .respond (.json 404 [("message", .str "Route not found")]) := by
    unfold mountLayer; rw [hstar.2]; rfl
  simp only [handle, app, appGet, appUse, henv, ne_eq, not_true_eq_false, if_false, if_true,
    List.nil_append, List.cons_append, List.append_nil, dispatch, hst, hjson, hurl, hpass,
    routeLayer_skips deps "/health" (healthHandler env w) req hhealth,
    mountLayer_skips deps _ _ req hauth, mountLayer_skips deps _ _ req hchat,
    mountLayer_skips deps _ _ req hquiz, mountLayer_skips deps _ _ req hprog,
    mountLayer_skips deps _ _ req hlead, hwild, hlast]
  cases hw : wildcardHandler deps req with
  | respond r => rfl
  | next => rfl
  | error e => simp [globalErrorHandler, henv]

/-- In production a `POST` of `/nonexistent` is answered by the 404 handler and
not with `index.html`: the fallback of lines 109-113 is a `GET` route,
although the comment of line 108 announces `index.html` for any non-API
route. -/
theorem production_post_reaches_404_handler :
    handle sampleDeps ⟨some "production"⟩ ⟨0, 1⟩ ⟨.POST, "/nonexistent", none, ""⟩ =
      .json 404 [("message", .str "Route not found")] := by
  decide

/-- C3 as stated fails: outside production a `GET` of `/api/does-not-exist`,
which no route group takes, is answered by the final 404 handler with
`Route not found`; in production a `POST` of the same path is answered the
same way, since the wildcard that names API routes is a `GET` route; outside
production the same `GET` carrying an origin that is not allow-listed is
answered with the 500 of the global error handler; and a path with a
malformed percent-escape under `/api` makes the `'*'` layers fail, which ends
in Express's own answer to the pending error outside production and in the
500 of the global error handler in production. -/
theorem api_unmatched_gets_generic_404 :
    startsWith "/api/does-not-exist" "/api" = true ∧
    unmatched sampleDeps ⟨.GET, "/api/does-not-exist", none, ""⟩ ∧
    handle sampleDeps ⟨some "development"⟩ ⟨0, 1⟩ ⟨.GET, "/api/does-not-exist", none, ""⟩ =
      .json 404 [("message", .str "Route not found")] ∧
    handle sampleDeps ⟨some "development"⟩ ⟨0, 1⟩ ⟨.GET, "/api/does-not-exist", none, ""⟩ ≠
      .json 404 [("message", .str "API route not found")] ∧
    unmatched sampleDeps ⟨.POST, "/api/does-not-exist", none, ""⟩ ∧
    handle sampleDeps ⟨some "production"⟩ ⟨0, 1⟩ ⟨.POST, "/api/does-not-exist", none, ""⟩ =
      .json 404 [("message", .str "Route not found")] ∧
    handle sampleDeps ⟨some "development"⟩ ⟨0, 1⟩
        ⟨.GET, "/api/does-not-exist", some "http://evil.example", ""⟩ =
      .json 500 [("message", .str "Internal server error"),
                 ("error", .str "Not allowed by CORS: http://evil.example")] ∧
    startsWith "/api/%E0%A4%A" "/api" = true ∧
    unmatched sampleDeps ⟨.GET, "/api/%E0%A4%A", none, ""⟩ ∧
    handle sampleDeps ⟨some "development"⟩ ⟨0, 1⟩ ⟨.GET, "/api/%E0%A4%A", none, ""⟩ =
      .finalhandler (some (decodeError "/api/%E0%A4%A")) ∧
    handle sampleDeps ⟨some "production"⟩ ⟨0, 1⟩ ⟨.GET, "/api/%E0%A4%A", none, ""⟩ =
      .json 500 [("message", .str "Internal server error"), ("error", .undefined)] := by
  refine ⟨by decide, ?_, by decide, by decide, ?_, by decide, by decide, by decide, ?_,
    by decide, by decide⟩
  · unfold unmatched routeSkips mountSkips; decide
  · unfold unmatched routeSkips mountSkips; decide
  · unfold unmatched routeSkips mountSkips; decide

/-- C3 amended: a request whose path starts with `/api`, that the library
middleware passes on, that no registered route takes and whose path the `'*'`
layers match (it decodes) is answered with status 404; the body is
`API route not found` when `NODE_ENV` is `production` and the method is `GET`
or `HEAD`, and `Route not found` otherwise. -/
theorem api_unmatched_response (deps : Deps) (env : ProcessEnv) (w : World) (req : Request)
    (hpath : startsWith req.path "/api" = true)
    (hmw : passesMiddleware deps env req) (hun : unmatched deps req)
    (hstar : wildcardsMatch deps req) :
    handle deps env w req =
      .json 404 [("message", .str
        (if env.NODE_ENV = some "production" ∧ (req.method = .GET ∨ req.method = .HEAD) then
          "API route not found"
         else "Route not found"))] := by
  by_cases henv : env.NODE_ENV = some "production"
  · by_cases hget : handlesGet req.method = true
    · rw [handle_unmatched_production_get deps env w req hmw hun hstar henv hget]
      have hm := (handlesGet_iff _).1 hget
      simp [wildcardHandler, hpath, henv, hm]
    · have hget2 : handlesGet req.method = false := by simpa using hget
      rw [handle_unmatched_production_other deps env w req hmw hun hstar henv hget2]
      have hm : ¬ (req.method = .GET ∨ req.method = .HEAD) :=
        fun h => hget ((handlesGet_iff _).2 h)
      simp [hm]
  · rw [handle_unmatched_outside_production deps env w req hmw hun hstar.2 henv]
    simp [henv]

/-- Witness for C3 amended: a production `GET` of `/api/does-not-exist`. -/
theorem api_unmatched_response_witness :
    startsWith "/api/does-not-exist" "/api" = true ∧
    passesMiddleware sampleDeps ⟨some "production"⟩ ⟨.GET, "/api/does-not-exist", none, ""⟩ ∧
    unmatched sampleDeps ⟨.GET, "/api/does-not-exist", none, ""⟩ ∧
    wildcardsMatch sampleDeps ⟨.GET, "/api/does-not-exist", none, ""⟩ ∧
    handle sampleDeps ⟨some "production"⟩ ⟨0, 1⟩ ⟨.GET, "/api/does-not-exist", none, ""⟩ =
      .json 404 [("message", .str
        (if (some "production" : Option String) = some "production" ∧
            (Method.GET = .GET ∨ Method.GET = .HEAD) then
          "API route not found"
         else "Route not found"))] :=
  ⟨by decide, by unfold passesMiddleware; decide,
   by unfold unmatched routeSkips mountSkips; decide, by unfold wildcardsMatch; decide,
   api_unmatched_response sampleDeps ⟨some "production"⟩ ⟨0, 1⟩
     ⟨.GET, "/api/does-not-exist", none, ""⟩ (by decide)
     (by unfold passesMiddleware; decide)
     (by unfold unmatched routeSkips mountSkips; decide) (by unfold wildcardsMatch; decide)⟩

/-- C4 as stated fails: outside production a `GET` of `/nonexistent`, which
matches no route and does not start with `/api`, is answered with the 500 of
the global error handler when it carries an origin that is not allow-listed;
a `GET` of `/100%`, which matches no route either, makes the `'*'` layers
fail on the malformed percent-escape, which ends in Express's own answer to
the pending error outside production and in the 500 of the global error
handler, not `index.html`, in production; and in production a `GET` of
`/nonexistent` is answered with that 500 too when `res.sendFile` cannot send
`index.html`. -/
theorem unmatched_request_stopped_before_fallback :
    startsWith "/nonexistent" "/api" = false ∧
    unmatched sampleDeps ⟨.GET, "/nonexistent", some "http://evil.example", ""⟩ ∧
    handle sampleDeps ⟨some "development"⟩ ⟨0, 1⟩
        ⟨.GET, "/nonexistent", some "http://evil.example", ""⟩ =
      .json 500 [("message", .str "Internal server error"),
                 ("error", .str "Not allowed by CORS: http://evil.example")] ∧
    startsWith "/100%" "/api" = false ∧
    unmatched sampleDeps ⟨.GET, "/100%", none, ""⟩ ∧
    handle sampleDeps ⟨some "development"⟩ ⟨0, 1⟩ ⟨.GET, "/100%", none, ""⟩ =
      .finalhandler (some (decodeError "/100%")) ∧
    handle sampleDeps ⟨some "production"⟩ ⟨0, 1⟩ ⟨.GET, "/100%", none, ""⟩ =
      .json 500 [("message", .str "Internal server error"), ("error", .undefined)] ∧
    unmatched unbuiltDeps ⟨.GET, "/nonexistent", none, ""⟩ ∧
    handle unbuiltDeps ⟨some "production"⟩ ⟨0, 1⟩ ⟨.GET, "/nonexistent", none, ""⟩ =
      .json 500 [("message", .str "Internal server error"), ("error", .undefined)] := by
  refine ⟨by decide, ?_, by decide, by decide, ?_, by decide, by decide, ?_, by decide⟩
  · unfold unmatched routeSkips mountSkips; decide
  · unfold unmatched routeSkips mountSkips; decide
  · unfold unmatched routeSkips mountSkips; decide

/-- C4 amended: a request whose path does not start with `/api`, that the
library middleware passes on, that no registered route takes and whose path
the `'*'` layers match (it decodes) is answered with the 404 `Route not found`
when `NODE_ENV` is not `production`, and with `index.html` of the front-end
bundle when `NODE_ENV` is `production`, the method is `GET` or `HEAD` and
`res.sendFile` can send the file. -/
theorem unmatched_response (deps : Deps) (env : ProcessEnv) (w : World) (req : Request)
    (hpath : startsWith req.path "/api" = false)
    (hmw : passesMiddleware deps env req) (hun : unmatched deps req)
    (hstar : wildcardsMatch deps req)
    (hcase : env.NODE_ENV ≠ some "production" ∨
      ((req.method = .GET ∨ req.method = .HEAD) ∧
        deps.sendFile (.join clientBuildPath "index.html") req =
          .respond (.sendFile (.join clientBuildPath "index.html")))) :
    handle deps env w req =
      if env.NODE_ENV = some "production" then
        .sendFile (.join clientBuildPath "index.html")
      else .json 404 [("message", .str "Route not found")] := by
  by_cases henv : env.NODE_ENV = some "production"
  · rcases hcase with hne | ⟨hm, hsend⟩
    · exact absurd henv hne
    · have hget := (handlesGet_iff _).2 hm
      rw [handle_unmatched_production_get deps env w req hmw hun hstar henv hget]
      simp [wildcardHandler, hpath, henv, hsend]
  · rw [handle_unmatched_outside_production deps env w req hmw hun hstar.2 henv]
    simp [henv]

/-- Witness for C4 amended: a production `GET` of `/nonexistent`, and a `POST`
of the same path when `NODE_ENV` is unset. -/
theorem unmatched_response_witness :
    (startsWith "/nonexistent" "/api" = false ∧
     passesMiddleware sampleDeps ⟨some "production"⟩ ⟨.GET, "/nonexistent", none, ""⟩ ∧
     unmatched sampleDeps ⟨.GET, "/nonexistent", none, ""⟩ ∧
     wildcardsMatch sampleDeps ⟨.GET, "/nonexistent", none, ""⟩ ∧
     handle sampleDeps ⟨some "production"⟩ ⟨0, 1⟩ ⟨.GET, "/nonexistent", none, ""⟩ =
       (if (some "production" : Option String) = some "production" then
         .sendFile (.join clientBuildPath "index.html")
        else .json 404 [("message", .str "Route not found")])) ∧
    (passesMiddleware sampleDeps ⟨none⟩ ⟨.POST, "/nonexistent", none, ""⟩ ∧
     unmatched sampleDeps ⟨.POST, "/nonexistent", none, ""⟩ ∧
     handle sampleDeps ⟨none⟩ ⟨0, 1⟩ ⟨.POST, "/nonexistent", none, ""⟩ =
       (if (none : Option String) = some "production" then
         .sendFile (.join clientBuildPath "index.html")
        else .json 404 [("message", .str "Route not found")])) :=
  ⟨⟨by decide, by unfold passesMiddleware; decide,
    by unfold unmatched routeSkips mountSkips; decide, by unfold wildcardsMatch; decide,
    unmatched_response sampleDeps ⟨some "production"⟩ ⟨0, 1⟩
      ⟨.GET, "/nonexistent", none, ""⟩ (by decide)
      (by unfold passesMiddleware; decide)
      (by unfold unmatched routeSkips mountSkips; decide) (by unfold wildcardsMatch; decide)
      (Or.inr ⟨Or.inl rfl, rfl⟩)⟩,
   ⟨by unfold passesMiddleware; decide,
    by unfold unmatched routeSkips mountSkips; decide,
    unmatched_response sampleDeps ⟨none⟩ ⟨0, 1⟩
      ⟨.POST, "/nonexistent", none, ""⟩ (by decide)
      (by unfold passesMiddleware; decide)
      (by unfold unmatched routeSkips mountSkips; decide) (by unfold wildcardsMatch; decide)
      (Or.inl (by decide))⟩⟩

end Server
